import Mathlib

/-!
Shallow embedding of src/main.py (a FastAPI item-catalog service with JWT
authentication) and proofs about its authentication flow, credential store
and item repository.

Time is modelled as a natural number of seconds; `datetime.utcnow()` becomes
an explicit `now : Nat` parameter and `timedelta(minutes=m)` becomes `m * 60`.
The process-global `fake_users_db` dict becomes an explicit store argument;
the SQLite items table becomes an explicit `ItemStore` argument.
-/

set_option autoImplicit false

namespace FastapiApp

/-- User record stored in the credential store, the value type of the
`fake_users_db` dict in src/main.py. -/
structure UserRecord where
  username : String
  full_name : String
  email : String
  hashed_password : String
  disabled : Bool
  deriving Repr, DecidableEq

/-- The credential store: a Python dict from username to record, embedded as
an association list in insertion order (keys are unique in every store the
program builds; lookup returns the first binding). -/
abbrev UsersDB := List (String × UserRecord)

/-- Dict lookup, as Python `dict.get`: the binding for the key, if any. -/
def dbGet (db : UsersDB) (k : String) : Option UserRecord :=
  match db with
  | [] => none
  | (k2, v) :: rest => if k = k2 then some v else dbGet rest k

/-- SECRET_KEY from src/main.py (the built-in default of the environment
variable). -/
def SECRET_KEY : String := "+=33!iqb-w7h)033(fvp6q80c42$@y0nnac&l75n_hgw4qe%q7"

/-- ALGORITHM from src/main.py. -/
def ALGORITHM : String := "HS256"

/-- ACCESS_TOKEN_EXPIRE_MINUTES from src/main.py. -/
def ACCESS_TOKEN_EXPIRE_MINUTES : Nat := 120

/-- Modelled from the spec: the Password Hasher (`pwd_context.hash`, a passlib
bcrypt CryptContext external to src/). The spec contract is a one-way digest
that `verify` recomputes and compares; the embedding idealises it as an
injective deterministic digest of the plaintext. -/
def get_password_hash (password : String) : String :=
  "bcrypt$" ++ password

/-- Modelled from the spec: `pwd_context.verify` recomputes the digest of the
plaintext and compares it with the stored digest. -/
def verify_password (plain_password hashed_password : String) : Bool :=
  get_password_hash plain_password == hashed_password

/-- The seed user record of `fake_users_db` in src/main.py: username
"testuser" with password "password", not disabled. -/
def testuserRecord : UserRecord :=
  { username := "testuser"
    full_name := "Test User"
    email := "test@example.com"
    hashed_password := get_password_hash "password"
    disabled := false }

/-- The initial credential store `fake_users_db` from src/main.py. -/
def fake_users_db : UsersDB := [("testuser", testuserRecord)]

/-- Token verification errors of the jose JWT library as the spec names them:
a bad signature and an expired token. -/
inductive TokenError where
  | invalidSignature
  | expired
  deriving Repr, DecidableEq

/-- Modelled from the spec: a signed JWT. The spec calls it an opaque string
encoding subject and expiry, signed with a secret; the embedding keeps the
claims and the signing key explicit. -/
structure JWTToken where
  sub : Option String
  exp : Nat
  key : String
  deriving Repr, DecidableEq

/-- The claim set of a decoded token: subject (absent when the payload has no
"sub" entry) and expiry timestamp. -/
structure JWTPayload where
  sub : Option String
  exp : Nat
  deriving Repr, DecidableEq

/-- Modelled from the spec: `jwt.encode` (jose, external to src/) signs the
payload with the given secret. -/
def jwt_encode (payload : JWTPayload) (key : String) : JWTToken :=
  { sub := payload.sub, exp := payload.exp, key := key }

/-- Modelled from the spec: `jwt.decode` (jose, external to src/). The
signature is checked first: a token signed with a different secret fails with
`invalidSignature` regardless of its claims; a token is then valid only while
the current time is strictly before its expiry, failing with `expired`
otherwise. -/
def jwt_decode (token : JWTToken) (key : String) (now : Nat) :
    Except TokenError JWTPayload :=
  if token.key ≠ key then .error .invalidSignature
  else if now < token.exp then .ok { sub := token.sub, exp := token.exp }
  else .error .expired

/-- HTTPException data as raised in src/main.py: status code and detail. -/
structure HTTPException where
  status_code : Nat
  detail : String
  deriving Repr, DecidableEq

/-- `authenticate_user` from src/main.py: look the username up in the store;
if absent or the password does not verify, return the falsy failure value
(embedded as `none`); otherwise return the record. -/
def authenticate_user (fake_db : UsersDB) (username password : String) :
    Option UserRecord :=
  match dbGet fake_db username with
  | none => none
  | some user =>
      if verify_password password user.hashed_password then some user else none

/-- `create_access_token` from src/main.py: copy the data (here its "sub"
entry), set exp by the truthiness test
`expires_delta if expires_delta else timedelta(minutes=15)` — a missing
delta AND a zero delta are both falsy in Python, so both take the 15-minute
fallback — and sign with SECRET_KEY. -/
def create_access_token (sub : Option String) (now : Nat)
    (expires_delta : Option Nat) : JWTToken :=
  jwt_encode
    { sub := sub
      exp := now + (match expires_delta with
        | some d => if d = 0 then 15 * 60 else d
        | none => 15 * 60) }
    SECRET_KEY

/-- `get_current_user` from src/main.py: decode the bearer token with
SECRET_KEY; any JWTError, and a missing "sub" claim, yield 401 with detail
"Invalid authentication credentials"; a subject absent from the store yields
401 with detail "User not found"; otherwise the stored record is returned.
The credential store and the current time are explicit parameters. -/
def get_current_user (db : UsersDB) (now : Nat) (token : JWTToken) :
    Except HTTPException UserRecord :=
  match jwt_decode token SECRET_KEY now with
  | .error _ =>
      .error { status_code := 401, detail := "Invalid authentication credentials" }
  | .ok payload =>
      match payload.sub with
      | none =>
          .error { status_code := 401, detail := "Invalid authentication credentials" }
      | some username =>
          match dbGet db username with
          | none => .error { status_code := 401, detail := "User not found" }
          | some user => .ok user

/-- Request body of POST /register/ in src/main.py. -/
structure UserRegister where
  username : String
  full_name : String
  email : String
  password : String
  deriving Repr, DecidableEq

/-- `register_user` from src/main.py: if the username is already a key of the
store, raise 400 with detail "Username already exists" before any write;
otherwise hash the password and insert the record with disabled = false.
Returns the store after the call together with the HTTP outcome. -/
def register_user (db : UsersDB) (user : UserRegister) :
    UsersDB × Except HTTPException String :=
  if (dbGet db user.username).isSome then
    (db, .error { status_code := 400, detail := "Username already exists" })
  else
    (db ++ [(user.username,
      { username := user.username
        full_name := user.full_name
        email := user.email
        hashed_password := get_password_hash user.password
        disabled := false })],
     .ok ("User " ++ user.username ++ " registered successfully!"))

/-- Response body of a successful POST /token in src/main.py. -/
structure TokenResponse where
  access_token : JWTToken
  token_type : String
  deriving Repr, DecidableEq

/-- `login_for_access_token` from src/main.py: authenticate; on failure raise
401 with detail "Invalid username or password"; on success issue a token for
the record's username with an explicit expires_delta of
ACCESS_TOKEN_EXPIRE_MINUTES. -/
def login_for_access_token (db : UsersDB) (now : Nat)
    (username password : String) : Except HTTPException TokenResponse :=
  match authenticate_user db username password with
  | none => .error { status_code := 401, detail := "Invalid username or password" }
  | some user =>
      .ok { access_token :=
              create_access_token (some user.username) now
                (some (ACCESS_TOKEN_EXPIRE_MINUTES * 60))
            token_type := "bearer" }

/-- Credential stores the running program can exhibit: the seed store, and
anything a sequence of /register/ calls produces from it (no other operation
writes to the user store). -/
inductive Reachable : UsersDB → Prop where
  | seed : Reachable fake_users_db
  | register (db : UsersDB) (u : UserRegister) :
      Reachable db → Reachable (register_user db u).1

/-- Projection of an authorization outcome to the resolved username, if any. -/
def okUsername (e : Except HTTPException UserRecord) : Option String :=
  match e with
  | .ok r => some r.username
  | .error _ => none

/-- Request body of POST /create-item/ in src/main.py (the pydantic Item
model: name, price, availability — price carries no sign constraint). The
float price is embedded as a rational. -/
structure Item where
  name : String
  price : ℚ
  is_available : Bool
  deriving Repr, DecidableEq

/-- Row of the items table (the ItemDB SQLAlchemy model in src/main.py):
generated id plus the submitted fields. -/
structure ItemDB where
  id : Nat
  name : String
  price : ℚ
  is_available : Bool
  deriving Repr, DecidableEq

/-- Modelled from the spec: the SQLite items table state. The spec says ids
are assigned by the store, unique and never reused; the embedding keeps the
persisted rows in insertion order together with the next id the engine will
assign (monotonically increasing, as for a fresh integer primary key). -/
structure ItemStore where
  items : List ItemDB
  next_id : Nat
  deriving Repr, DecidableEq

/-- The items table as created at startup: empty, first generated id 1. -/
def itemStoreInit : ItemStore := { items := [], next_id := 1 }

/-- `create_item` from src/main.py: build a row from the submitted fields,
let the store assign its id, persist it by appending, and hand back the
committed row (the endpoint then answers with a message naming it). -/
def create_item (store : ItemStore) (item : Item) : ItemStore × ItemDB :=
  let db_item : ItemDB :=
    { id := store.next_id
      name := item.name
      price := item.price
      is_available := item.is_available }
  ({ items := store.items ++ [db_item], next_id := store.next_id + 1 }, db_item)

/-- Run a sequence of create calls, collecting the committed rows in call
order. -/
def runCreates (store : ItemStore) (items : List Item) :
    ItemStore × List ItemDB :=
  match items with
  | [] => (store, [])
  | it :: rest =>
      let p := create_item store it
      let q := runCreates p.1 rest
      (q.1, p.2 :: q.2)

/-! ## Helper lemmas on the credential store -/

theorem dbGet_append_of_some (db : UsersDB) (l : UsersDB) (k : String)
    (r : UserRecord) (h : dbGet db k = some r) : dbGet (db ++ l) k = some r := by
  induction db with
  | nil => simp [dbGet] at h
  | cons p rest ih =>
      obtain ⟨k2, v⟩ := p
      simp only [dbGet, List.cons_append] at h ⊢
      by_cases hk : k = k2
      · simpa [hk] using h
      · simp only [hk, if_false] at h ⊢
        exact ih h

theorem dbGet_append_of_none (db : UsersDB) (l : UsersDB) (k : String)
    (h : dbGet db k = none) : dbGet (db ++ l) k = dbGet l k := by
  induction db with
  | nil => simp [dbGet]
  | cons p rest ih =>
      obtain ⟨k2, v⟩ := p
      simp only [dbGet, List.cons_append] at h ⊢
      by_cases hk : k = k2
      · simp [hk] at h
      · simp only [hk, if_false] at h ⊢
        exact ih h

/-- Every reachable credential store is keyed consistently: the record found
under a key carries that key as its username. -/
theorem reachable_username_key (db : UsersDB) (hdb : Reachable db) :
    ∀ k r, dbGet db k = some r → r.username = k := by
  induction hdb with
  | seed =>
      intro k r h
      simp only [fake_users_db, dbGet] at h
      by_cases hk : k = "testuser"
      · simp only [hk, if_true] at h
        cases h
        simp [testuserRecord, hk]
      · simp [hk] at h
  | register db u _ ih =>
      intro k r h
      unfold register_user at h
      by_cases hpres : (dbGet db u.username).isSome
      · rw [if_pos hpres] at h
        exact ih k r h
      · rw [if_neg hpres] at h
        dsimp only at h
        cases hold : dbGet db k with
        | some r0 =>
            rw [dbGet_append_of_some db _ k r0 hold] at h
            cases h
            exact ih k r hold
        | none =>
            rw [dbGet_append_of_none db _ k hold] at h
            simp only [dbGet] at h
            by_cases hk : k = u.username
            · simp only [hk, if_true] at h
              cases h
              simp [hk]
            · simp [hk] at h

/-! ## Claim theorems -/

/-- C10: every user record in every reachable credential store has
disabled = false — the seed record is created enabled, register always writes
disabled = false, and no operation ever sets the flag to true. -/
theorem C10_all_stored_users_enabled (db : UsersDB) (hdb : Reachable db) :
    ∀ k r, dbGet db k = some r → r.disabled = false := by
  induction hdb with
  | seed =>
      intro k r h
      simp only [fake_users_db, dbGet] at h
      by_cases hk : k = "testuser"
      · simp only [hk, if_true] at h
        cases h
        rfl
      · simp [hk] at h
  | register db u _ ih =>
      intro k r h
      unfold register_user at h
      by_cases hpres : (dbGet db u.username).isSome
      · rw [if_pos hpres] at h
        exact ih k r h
      · rw [if_neg hpres] at h
        dsimp only at h
        cases hold : dbGet db k with
        | some r0 =>
            rw [dbGet_append_of_some db _ k r0 hold] at h
            cases h
            exact ih k r hold
        | none =>
            rw [dbGet_append_of_none db _ k hold] at h
            simp only [dbGet] at h
            by_cases hk : k = u.username
            · simp only [hk, if_true] at h
              cases h
              rfl
            · simp [hk] at h

/-- C10 witness: the seed store is reachable and its stored record is
enabled. -/
theorem C10_witness : testuserRecord.disabled = false :=
  C10_all_stored_users_enabled fake_users_db Reachable.seed "testuser"
    testuserRecord (by decide)

/-- A user record with disabled = true, used to exhibit that the disabled
flag is never consulted. -/
def daveRecord : UserRecord :=
  { username := "dave"
    full_name := "Dave Disabled"
    email := "dave@example.com"
    hashed_password := get_password_hash "davepw"
    disabled := true }

/-- A credential store holding a disabled user. -/
def disabledDB : UsersDB := [("dave", daveRecord)]

/-- C1 (counterexample): for a store holding a user with disabled = true,
authenticate_user still returns the record when the password verifies, and
get_current_user still resolves a fresh token for that user — neither
operation fails on a disabled user, contradicting the claim. -/
theorem C1_counterexample :
    daveRecord.disabled = true
    ∧ authenticate_user disabledDB "dave" "davepw" = some daveRecord
    ∧ get_current_user disabledDB 0 (create_access_token (some "dave") 0 none)
        = .ok daveRecord := by
  refine ⟨rfl, by decide, by rfl⟩

/-- C1 (amended): neither operation consults the disabled flag.
authenticate_user returns a record exactly when the username exists and the
password verifies, and get_current_user succeeds exactly when the token is
signed with SECRET_KEY, unexpired, and its subject claim resolves in the
store — with no condition on disabled in either case. -/
theorem C1_disabled_flag_not_consulted (db : UsersDB)
    (username password : String) (now : Nat) (token : JWTToken)
    (r : UserRecord) :
    (authenticate_user db username password = some r ↔
      dbGet db username = some r
        ∧ verify_password password r.hashed_password = true)
    ∧ (get_current_user db now token = .ok r ↔
      token.key = SECRET_KEY ∧ now < token.exp
        ∧ token.sub.bind (fun u => dbGet db u) = some r) := by
  constructor
  · unfold authenticate_user
    cases hget : dbGet db username with
    | none => simp
    | some u =>
        by_cases hv : verify_password password u.hashed_password = true
        · simp only [hv, if_true, Option.some.injEq]
          constructor
          · intro h
            subst h
            exact ⟨rfl, hv⟩
          · intro h
            exact h.1
        · have hv2 : verify_password password u.hashed_password = false := by
            simpa using hv
          simp only [hv2, Bool.false_eq_true, if_false, Option.some.injEq]
          constructor
          · intro h
            cases h
          · rintro ⟨rfl, h2⟩
            rw [hv2] at h2
            cases h2
  · unfold get_current_user jwt_decode
    by_cases hkey : token.key = SECRET_KEY
    · rw [if_neg (by simp [hkey])]
      by_cases hexp : now < token.exp
      · rw [if_pos hexp]
        dsimp only
        cases hsub : token.sub with
        | none => simp [hkey, hexp]
        | some u =>
            dsimp only
            cases hget2 : dbGet db u with
            | none => simp [hkey, hexp, hget2]
            | some u2 => simp [hkey, hexp, hget2]
      · rw [if_neg hexp]
        simp [hexp]
    · rw [if_pos hkey]
      simp [hkey]

/-- C4: the failure value of authenticate_user is the same (the falsy value,
embedded as none) whether the username is absent or the password fails to
verify; the caller cannot tell the two causes apart from the result. -/
theorem C4_anti_enumeration (db db2 : UsersDB) (u p u2 p2 : String)
    (r : UserRecord) (habsent : dbGet db u = none)
    (hpresent : dbGet db2 u2 = some r)
    (hwrong : verify_password p2 r.hashed_password = false) :
    authenticate_user db u p = authenticate_user db2 u2 p2
    ∧ authenticate_user db u p = none := by
  have h1 : authenticate_user db u p = none := by
    unfold authenticate_user
    rw [habsent]
  have h2 : authenticate_user db2 u2 p2 = none := by
    unfold authenticate_user
    rw [hpresent]
    simp [hwrong]
  exact ⟨h1.trans h2.symm, h1⟩

/-- C4 witness: an unknown username and a wrong password for the seed user
produce the identical failure value. -/
theorem C4_witness :
    authenticate_user fake_users_db "mallory" "password"
      = authenticate_user fake_users_db "testuser" "wrongpassword"
    ∧ authenticate_user fake_users_db "mallory" "password" = none :=
  C4_anti_enumeration fake_users_db fake_users_db "mallory" "password"
    "testuser" "wrongpassword" testuserRecord (by decide) (by decide)
    (by decide)

/-- C5: when the username is already present, register_user answers 400 with
detail "Username already exists" and returns the store unchanged — the check
happens before any write, so the first record is retained and no partial
write occurs. -/
theorem C5_duplicate_register (db : UsersDB) (u : UserRegister)
    (r : UserRecord) (hpresent : dbGet db u.username = some r) :
    register_user db u
      = (db, .error { status_code := 400, detail := "Username already exists" }) := by
  unfold register_user
  rw [if_pos (by rw [hpresent]; rfl)]

/-- C5 witness: re-registering testuser on the seed store fails with 400 and
leaves the store as it was. -/
theorem C5_witness :
    register_user fake_users_db
        { username := "testuser", full_name := "Test User Again",
          email := "again@example.com", password := "newpassword" }
      = (fake_users_db,
         .error { status_code := 400, detail := "Username already exists" }) :=
  C5_duplicate_register fake_users_db
    { username := "testuser", full_name := "Test User Again",
      email := "again@example.com", password := "newpassword" }
    testuserRecord (by decide)

/-- C6 (counterexample): a token requested with ttl 0 at time 0 is not
rejected after t0 + T = 0 — the zero timedelta is falsy, the 15-minute
fallback applies, and the token still decodes fine at time 1. -/
theorem C6_counterexample :
    jwt_decode (create_access_token (some "testuser") 0 (some 0)) SECRET_KEY 1
      = .ok { sub := some "testuser", exp := 900 }
    ∧ (0 : Nat) + 0 < 1 := by
  exact ⟨rfl, by decide⟩

/-- C6 (amended): a token issued at t0 with a nonzero ttl T is accepted by
the verifier at every time strictly before t0 + T and rejected with the
expired error at every time strictly after t0 + T (a requested ttl of 0 is
falsy and falls back to the 15-minute default instead). -/
theorem C6_expiry_boundary (sub : Option String) (t0 T t : Nat) (hT : T ≠ 0) :
    (t < t0 + T →
      jwt_decode (create_access_token sub t0 (some T)) SECRET_KEY t
        = .ok { sub := sub, exp := t0 + T })
    ∧ (t0 + T < t →
      jwt_decode (create_access_token sub t0 (some T)) SECRET_KEY t
        = .error .expired) := by
  unfold create_access_token jwt_encode jwt_decode
  dsimp only
  rw [if_neg hT]
  constructor
  · intro h
    rw [if_neg (by simp), if_pos h]
  · intro h
    rw [if_neg (by simp), if_neg (by omega)]

/-- C6 witness: a token with ttl 60 issued at time 1000 is accepted at 1059
and rejected as expired at 1061. -/
theorem C6_witness :
    jwt_decode (create_access_token (some "testuser") 1000 (some 60))
        SECRET_KEY 1059 = .ok { sub := some "testuser", exp := 1060 }
    ∧ jwt_decode (create_access_token (some "testuser") 1000 (some 60))
        SECRET_KEY 1061 = .error .expired :=
  ⟨(C6_expiry_boundary (some "testuser") 1000 60 1059 (by decide)).1 (by decide),
   (C6_expiry_boundary (some "testuser") 1000 60 1061 (by decide)).2 (by decide)⟩

/-- C7: a token signed with any secret other than SECRET_KEY is rejected by
verification with the invalid-signature error, whatever its subject and
expiry claims are. -/
theorem C7_wrong_secret (sub : Option String) (e : Nat) (secret : String)
    (now : Nat) (h : secret ≠ SECRET_KEY) :
    jwt_decode (jwt_encode { sub := sub, exp := e } secret) SECRET_KEY now
      = .error .invalidSignature := by
  unfold jwt_encode jwt_decode
  dsimp only
  rw [if_pos h]

/-- C7 witness: a token signed with the secret "attacker-secret" is rejected
as invalid even though unexpired. -/
theorem C7_witness :
    jwt_decode (jwt_encode { sub := some "testuser", exp := 999999 }
        "attacker-secret") SECRET_KEY 0 = .error .invalidSignature :=
  C7_wrong_secret (some "testuser") 999999 "attacker-secret" 0 (by decide)

/-- C3 (counterexample): create_access_token called without expires_delta at
issue time 0 produces expiry 900 (15 minutes), not issue time plus 120
minutes. -/
theorem C3_counterexample :
    (create_access_token (some "testuser") 0 none).exp = 900
    ∧ (900 : Nat) ≠ 0 + ACCESS_TOKEN_EXPIRE_MINUTES * 60 := by
  exact ⟨rfl, by decide⟩

/-- C3 (amended): the default ttl of create_access_token, used when no
expires_delta is given, is 15 minutes; ACCESS_TOKEN_EXPIRE_MINUTES is 120,
and session tokens get the 120-minute ttl because the login endpoint passes
it as an explicit expires_delta. -/
theorem C3_default_and_session_ttl (sub : Option String) (now : Nat) :
    (create_access_token sub now none).exp = now + 15 * 60
    ∧ ACCESS_TOKEN_EXPIRE_MINUTES = 120
    ∧ ∀ (db : UsersDB) (t : Nat) (username password : String)
        (resp : TokenResponse),
        login_for_access_token db t username password = .ok resp →
        resp.access_token.exp = t + ACCESS_TOKEN_EXPIRE_MINUTES * 60 := by
  refine ⟨rfl, rfl, ?_⟩
  intro db t username password resp hlogin
  unfold login_for_access_token at hlogin
  cases hauth : authenticate_user db username password with
  | none =>
      rw [hauth] at hlogin
      cases hlogin
  | some user =>
      rw [hauth] at hlogin
      injection hlogin with h
      subst h
      rfl

/-- C3 witness: the token issued by a successful login of testuser at time 0
expires at 0 + 120 minutes. -/
theorem C3_witness :
    ({ access_token := { sub := some "testuser", exp := 7200, key := SECRET_KEY },
       token_type := "bearer" } : TokenResponse).access_token.exp
      = 0 + ACCESS_TOKEN_EXPIRE_MINUTES * 60 :=
  (C3_default_and_session_ttl (some "testuser") 0).2.2 fake_users_db 0
    "testuser" "password"
    { access_token := { sub := some "testuser", exp := 7200, key := SECRET_KEY },
      token_type := "bearer" }
    (by rfl)

/-- C8 (counterexample): create_item accepts and persists an item with a
negative price — the store then holds a row with price below zero. -/
theorem C8_counterexample :
    (create_item itemStoreInit
        { name := "Widget", price := -1, is_available := true }).1.items
      = [{ id := 1, name := "Widget", price := -1, is_available := true }]
    ∧ ((-1 : ℚ) < 0) := by
  exact ⟨rfl, by norm_num⟩

/-- C8 (amended): create_item performs no sign check: it persists the
submitted price verbatim, so an item with negative price is committed to the
store with that negative price. -/
theorem C8_negative_price_persisted (store : ItemStore) (item : Item)
    (h : item.price < 0) :
    (create_item store item).2.price < 0
    ∧ (create_item store item).2 ∈ (create_item store item).1.items := by
  unfold create_item
  dsimp only
  exact ⟨h, List.mem_append_right _ (List.mem_singleton.2 rfl)⟩

/-- C8 witness: the Widget item with price -1 is persisted with its negative
price. -/
theorem C8_witness :
    (create_item itemStoreInit
        { name := "Widget", price := -1, is_available := true }).2.price < 0
    ∧ (create_item itemStoreInit
        { name := "Widget", price := -1, is_available := true }).2
      ∈ (create_item itemStoreInit
        { name := "Widget", price := -1, is_available := true }).1.items :=
  C8_negative_price_persisted itemStoreInit
    { name := "Widget", price := -1, is_available := true } (by norm_num)

/-- The ids handed out by a run of creates are consecutive, starting at the
next id of the store. -/
theorem runCreates_ids (store : ItemStore) (items : List Item) :
    (runCreates store items).2.map ItemDB.id
      = List.range' store.next_id items.length := by
  induction items generalizing store with
  | nil => rfl
  | cons it rest ih =>
      simp only [runCreates, List.map_cons, List.length_cons]
      rw [ih]
      rfl

/-- C9: for every sequence of create calls on the item repository, the
assigned ids are pairwise distinct — an id is never reused. -/
theorem C9_ids_never_reused (items : List Item) :
    ((runCreates itemStoreInit items).2.map ItemDB.id).Nodup := by
  rw [runCreates_ids]
  exact List.nodup_range' _ _

/-- C2: for a reachable store, a successful login issues a token that the
auth gate, at any time before its expiry, resolves to a user record carrying
exactly the username that logged in. -/
theorem C2_login_roundtrip (db : UsersDB) (hdb : Reachable db)
    (username password : String) (t0 t : Nat) (resp : TokenResponse)
    (hlogin : login_for_access_token db t0 username password = .ok resp)
    (ht : t < t0 + ACCESS_TOKEN_EXPIRE_MINUTES * 60) :
    okUsername (get_current_user db t resp.access_token) = some username := by
  unfold login_for_access_token at hlogin
  cases hauth : authenticate_user db username password with
  | none =>
      rw [hauth] at hlogin
      cases hlogin
  | some user =>
      rw [hauth] at hlogin
      injection hlogin with h
      subst h
      have hget : dbGet db username = some user := by
        unfold authenticate_user at hauth
        cases hg : dbGet db username with
        | none =>
            rw [hg] at hauth
            cases hauth
        | some u2 =>
            rw [hg] at hauth
            dsimp only at hauth
            by_cases hv : verify_password password u2.hashed_password = true
            · rw [if_pos hv] at hauth
              cases hauth
              rfl
            · rw [if_neg hv] at hauth
              cases hauth
      have huser : user.username = username :=
        reachable_username_key db hdb username user hget
      unfold get_current_user jwt_decode create_access_token jwt_encode
      dsimp only
      rw [if_neg (show ¬(ACCESS_TOKEN_EXPIRE_MINUTES * 60 = 0) from by decide)]
      rw [if_neg (by simp), if_pos ht]
      dsimp only
      rw [huser, hget]
      show some user.username = some username
      rw [huser]

/-- C2 witness: logging in as testuser at time 0 yields a token that the auth
gate resolves back to testuser. -/
theorem C2_witness :
    okUsername (get_current_user fake_users_db 0
        ({ access_token := { sub := some "testuser", exp := 7200, key := SECRET_KEY },
           token_type := "bearer" } : TokenResponse).access_token)
      = some "testuser" :=
  C2_login_roundtrip fake_users_db Reachable.seed "testuser" "password" 0 0
    { access_token := { sub := some "testuser", exp := 7200, key := SECRET_KEY },
      token_type := "bearer" }
    (by rfl) (by decide)

end FastapiApp
